import Mathlib

/-!
Shallow embedding of the astrosurveillance edge-server core
(motion validation, alarm sequencing, recording lifecycle, storage
capacity management) together with theorems checking the behavioural
claims of its specification.

Sources embedded:
- src/shared/types.js (RecordingState, AlarmState, MotionEventType,
  StorageHealth, generateVideoFilename)
- src/edge-server/src/modules/MotionDetector.js
- src/edge-server/src/modules/CloudRelay.js (RecordingController part)
- src/edge-server/src/modules/AlarmController.js
- src/edge-server/src/modules/StorageManager.js
- the server orchestrator (unnamed source part 005): the
  motionDetector.on('motion') listener

Time is modelled as milliseconds (Nat) where the code uses Date.now(),
and as a second-resolution calendar stamp (Timestamp) where the code
formats a Date into a filename.  JavaScript numbers used in motion
analysis are modelled as rationals.  Asynchronous callbacks (timer
firings, ffmpeg error events, save-completion continuations) are
modelled as explicit operations on the state; an operation whose
enabling condition (pending timer / pending continuation) is absent is
a no-op, exactly as a cancelled timer never fires.
-/

namespace Astro

/-! ### Shared types (src/shared/types.js) -/

inductive RecordingState where
  | IDLE
  | RECORDING
  | LOCKED
  | SAVING
  | RESET
  deriving DecidableEq, Repr

inductive AlarmState where
  | ARMED
  | DISARMED
  | TRIGGERED
  | COOLDOWN
  deriving DecidableEq, Repr

inductive MotionEventType where
  | MOTION_START
  | MOTION_END
  | FALSE_POSITIVE
  deriving DecidableEq, Repr

inductive StorageHealth where
  | HEALTHY
  | WARNING
  | CRITICAL
  | ERROR
  deriving DecidableEq, Repr

/-- Calendar timestamp at the second resolution used by
`generateVideoFilename` (the getFullYear/getMonth+1/getDate/getHours/
getMinutes/getSeconds projections of a JS Date). -/
structure Timestamp where
  year : Nat
  month : Nat
  day : Nat
  hour : Nat
  minute : Nat
  second : Nat
  deriving DecidableEq, Repr

/-- The `pad` helper of generateVideoFilename:
String(n).padStart(2, '0'). -/
def pad (n : Nat) : String :=
  let s := toString n
  if s.length < 2 then "0" ++ s else s

/-- generateVideoFilename from src/shared/types.js:
`${cameraId}_${date}_${time}.mp4` with date `YYYY-MM-DD` and time
`HH-MM-SS`. -/
def generateVideoFilename (cameraId : String) (t : Timestamp) : String :=
  cameraId ++ "_" ++ toString t.year ++ "-" ++ pad t.month ++ "-" ++ pad t.day
    ++ "_" ++ pad t.hour ++ "-" ++ pad t.minute ++ "-" ++ pad t.second ++ ".mp4"

/-! ### Association-list helpers mirroring JS Map get/set/delete -/

/-- Map.prototype.set: replace the binding of the key if present,
otherwise append a fresh binding. -/
def setKey {α : Type} : List (String × α) → String → α → List (String × α)
  | [], k, v => [(k, v)]
  | (k', v') :: rest, k, v =>
      if k' = k then (k, v) :: rest else (k', v') :: setKey rest k v

/-- Map.prototype.delete: remove the binding of the key. -/
def removeKey {α : Type} (l : List (String × α)) (k : String) :
    List (String × α) :=
  l.filter (fun p => p.1 ≠ k)

theorem lookup_setKey {α : Type} (l : List (String × α)) (k : String) (v : α) :
    (setKey l k v).lookup k = some v := by
  induction l with
  | nil => simp [setKey, List.lookup]
  | cons hd tl ih =>
      obtain ⟨k', v'⟩ := hd
      by_cases h : k' = k
      · simp [setKey, h, List.lookup]
      · have hb : (k == k') = false := beq_eq_false_iff_ne.mpr (Ne.symm h)
        simp [setKey, h, List.lookup, hb, ih]

theorem lookup_setKey_ne {α : Type} (l : List (String × α)) (k k' : String)
    (v : α) (h : k' ≠ k) : (setKey l k v).lookup k' = l.lookup k' := by
  have hb : (k' == k) = false := beq_eq_false_iff_ne.mpr h
  induction l with
  | nil => simp [setKey, List.lookup, hb]
  | cons hd tl ih =>
      obtain ⟨k₀, v₀⟩ := hd
      by_cases hk : k₀ = k
      · subst hk
        simp [setKey, List.lookup, hb]
      · simp [setKey, hk, List.lookup, ih]

theorem lookup_removeKey {α : Type} (l : List (String × α)) (k : String) :
    (removeKey l k).lookup k = none := by
  induction l with
  | nil => rfl
  | cons hd tl ih =>
      obtain ⟨k', v⟩ := hd
      by_cases h : k' = k
      · simpa [removeKey, List.filter_cons, h] using ih
      · have hb : (k == k') = false := beq_eq_false_iff_ne.mpr (Ne.symm h)
        simpa [removeKey, List.filter_cons, h, List.lookup, hb] using ih

/-! ### Motion Detector (src/edge-server/src/modules/MotionDetector.js) -/

/-- Sensitivity levels recognised by the sensitivity map
(low 1.5, medium 1.0, high 0.6). -/
inductive Sensitivity where
  | low
  | medium
  | high
  deriving DecidableEq, Repr

def sensitivityMap : Sensitivity → ℚ
  | .low => 3 / 2
  | .medium => 1
  | .high => 3 / 5

structure MotionConfig where
  threshold : ℚ
  minDurationMs : Nat
  minPixelChangePercent : ℚ
  ignoreShadows : Bool
  ignoreLightingChanges : Bool
  sensitivityLevel : Sensitivity
  deriving DecidableEq

/-- Frame analysis data accepted by processFrame (defaults 0 / false). -/
structure FrameData where
  pixelChangePercent : ℚ
  motionLevel : ℚ
  hasShadow : Bool
  hasLightingChange : Bool
  deriving DecidableEq

/-- Per-camera motion state created by attachCamera. -/
structure MotionState where
  isMotionActive : Bool
  motionStartTime : Option Nat
  lastMotionLevel : ℚ
  consecutiveFrames : Nat
  deriving DecidableEq

def initialMotionState : MotionState :=
  { isMotionActive := false
    motionStartTime := none
    lastMotionLevel := 0
    consecutiveFrames := 0 }

/-- Event emitted on the 'motion' channel. -/
structure MotionEvent where
  type : MotionEventType
  duration : Option Nat
  level : Option ℚ
  deriving DecidableEq

/-- _validateMotion: the four anti-false-trigger rules. -/
def validateMotion (cfg : MotionConfig) (d : FrameData) : Bool :=
  let sensitivity := sensitivityMap cfg.sensitivityLevel
  let adjustedThreshold := cfg.threshold * sensitivity
  if d.motionLevel < adjustedThreshold then false
  else if d.pixelChangePercent < cfg.minPixelChangePercent then false
  else if cfg.ignoreShadows && d.hasShadow then false
  else if cfg.ignoreLightingChanges && d.hasLightingChange then false
  else true

/-- _processMotion: debounce bookkeeping on a candidate frame. -/
def processMotion (cfg : MotionConfig) (st : MotionState) (level : ℚ)
    (now : Nat) : MotionState × List MotionEvent :=
  let st := { st with lastMotionLevel := level,
                      consecutiveFrames := st.consecutiveFrames + 1 }
  let st :=
    if st.isMotionActive then st
    else { st with motionStartTime := some now, isMotionActive := true }
  let duration := now - st.motionStartTime.getD now
  if cfg.minDurationMs ≤ duration ∧ 3 ≤ st.consecutiveFrames then
    ({ st with motionStartTime := some now, consecutiveFrames := 0 },
     [{ type := .MOTION_START, duration := some duration, level := some level }])
  else
    (st, [])

/-- _processNoMotion: close an open episode, idempotent otherwise. -/
def processNoMotion (st : MotionState) : MotionState × List MotionEvent :=
  if st.isMotionActive then
    ({ st with isMotionActive := false, consecutiveFrames := 0 },
     [{ type := .MOTION_END, duration := none, level := none }])
  else
    (st, [])

/-- One processFrame call restricted to the per-camera motion state:
validate, then the candidate / non-candidate branch. -/
def stepFrame (cfg : MotionConfig) (st : MotionState) (d : FrameData)
    (now : Nat) : MotionState × List MotionEvent :=
  if validateMotion cfg d then processMotion cfg st d.motionLevel now
  else processNoMotion st

/-- MotionDetector state: config, attached cameras (id ↦ enabled flag)
and per-camera motion state. -/
structure Detector where
  cfg : MotionConfig
  cameras : List (String × Bool)
  motionState : List (String × MotionState)

def mkDetector (cfg : MotionConfig) : Detector :=
  { cfg := cfg, cameras := [], motionState := [] }

/-- attachCamera: register the camera (enabled) with a fresh motion
state; a second attach of the same id is ignored. -/
def Detector.attachCamera (det : Detector) (cameraId : String) : Detector :=
  if (det.cameras.lookup cameraId).isSome then det
  else
    { det with
        cameras := det.cameras ++ [(cameraId, true)],
        motionState := det.motionState ++ [(cameraId, initialMotionState)] }

/-- processFrame: drop the frame for unknown or disabled cameras, else
run the validation and debounce logic on that camera's state. -/
def Detector.processFrame (det : Detector) (cameraId : String)
    (d : FrameData) (now : Nat) : Detector × List MotionEvent :=
  match det.cameras.lookup cameraId with
  | none => (det, [])
  | some enabled =>
      if !enabled then (det, [])
      else
        match det.motionState.lookup cameraId with
        | none => (det, [])
        | some st =>
            let (st', evs) := stepFrame det.cfg st d now
            ({ det with motionState := setKey det.motionState cameraId st' },
             evs)

/-- Feed a timed sequence of frames for one camera, collecting all
emitted motion events. -/
def Detector.runFrames (det : Detector) (cameraId : String) :
    List (Nat × FrameData) → Detector × List MotionEvent
  | [] => (det, [])
  | (t, d) :: rest =>
      let (det', evs) := det.processFrame cameraId d t
      let (det'', evs') := det'.runFrames cameraId rest
      (det'', evs ++ evs')

/-- Per-camera-state analogue of runFrames. -/
def runSteps (cfg : MotionConfig) (st : MotionState) :
    List (Nat × FrameData) → MotionState × List MotionEvent
  | [] => (st, [])
  | (t, d) :: rest =>
      let (st', evs) := stepFrame cfg st d t
      let (st'', evs') := runSteps cfg st' rest
      (st'', evs ++ evs')

/-- Number of confirmed (MOTION_START) events in an emission list. -/
def countStart (evs : List MotionEvent) : Nat :=
  evs.countP (fun e => e.type = MotionEventType.MOTION_START)

/-! ### Recording Lifecycle Controller
(RecordingController in src/edge-server/src/modules/CloudRelay.js) -/

/-- Per-camera recording state created by getCameraState. -/
structure CamRecState where
  state : RecordingState
  currentFile : Option String
  startTime : Option Timestamp
  rtspUrl : Option String
  deriving DecidableEq, Repr

def initialCamRecState : CamRecState :=
  { state := .IDLE, currentFile := none, startTime := none, rtspUrl := none }

/-- An entry of the activeProcesses map (a real ffmpeg process or the
test-pattern placeholder object). -/
structure RecProcess where
  simulated : Bool
  deriving DecidableEq, Repr

inductive RecEvent where
  | recordingStarted (cameraId : String) (filename : String)
  | recordingComplete (cameraId : String) (filename : Option String)
  | recordingError (cameraId : String)
  | recordingReady (cameraId : String)
  deriving DecidableEq, Repr

/-- Controller state: the cameraStates and activeProcesses maps, the
pending single-shot timers keyed recording_(id) and reset_(id), the
in-flight _saveRecording continuations (with the filename captured when
the save was issued), and the entries handed to
storageManager.addRecording. -/
structure RecorderSt where
  cameraStates : List (String × CamRecState)
  activeProcesses : List (String × RecProcess)
  recordingTimer : List String
  resetTimer : List String
  pendingSave : List (String × Option String)
  indexedFiles : List (String × String)
  deriving DecidableEq, Repr

def initialRecorderSt : RecorderSt :=
  { cameraStates := [], activeProcesses := [], recordingTimer := [],
    resetTimer := [], pendingSave := [], indexedFiles := [] }

/-- getCameraState: the stored per-camera state, or the freshly
initialised one (the source inserts the default lazily; reading it
through the default is observationally the same). -/
def getCamera (s : RecorderSt) (cameraId : String) : CamRecState :=
  (s.cameraStates.lookup cameraId).getD initialCamRecState

/-- Timer.start under a key cancels any pending timer with that key
before scheduling, so a pending-timer set suffices. -/
def addTimer (l : List String) (cameraId : String) : List String :=
  if cameraId ∈ l then l else cameraId :: l

def removeTimer (l : List String) (cameraId : String) : List String :=
  l.filter (fun k => k ≠ cameraId)

theorem mem_addTimer (l : List String) (a b : String) :
    a ∈ addTimer l b ↔ a = b ∨ a ∈ l := by
  unfold addTimer
  by_cases h : b ∈ l
  · simp only [if_pos h]
    exact ⟨fun hm => Or.inr hm, fun hm => hm.elim (fun e => e ▸ h) id⟩
  · simp [if_neg h, List.mem_cons]

theorem mem_removeTimer (l : List String) (a b : String) :
    a ∈ removeTimer l b ↔ a ∈ l ∧ a ≠ b := by
  simp [removeTimer, List.mem_filter]

/-- startRecording: guarded on phase IDLE; on success transitions to
RECORDING, derives the output filename from the camera id and the
current timestamp, launches the capture process (simulated when no
RTSP URL is known) and starts the recording_(id) timer. -/
def startRecording (s : RecorderSt) (cameraId : String) (now : Timestamp)
    (rtspUrl : Option String) : Bool × RecorderSt × List RecEvent :=
  let cs := getCamera s cameraId
  if cs.state ≠ RecordingState.IDLE then (false, s, [])
  else
    let url := rtspUrl.orElse (fun _ => cs.rtspUrl)
    let file := generateVideoFilename cameraId now
    let cs' : CamRecState :=
      { state := .RECORDING, currentFile := some file,
        startTime := some now, rtspUrl := url }
    let s' : RecorderSt :=
      { s with
          cameraStates := setKey s.cameraStates cameraId cs',
          activeProcesses :=
            setKey s.activeProcesses cameraId { simulated := url.isNone },
          recordingTimer := addTimer s.recordingTimer cameraId }
    (true, s', [RecEvent.recordingStarted cameraId file])

/-- _onTimerEnd: guarded on phase RECORDING; stops the capture process,
transitions to SAVING and issues the asynchronous _saveRecording with
the filename read at this point. -/
def onTimerEnd (s : RecorderSt) (cameraId : String) :
    RecorderSt × List RecEvent :=
  let cs := getCamera s cameraId
  if cs.state ≠ RecordingState.RECORDING then (s, [])
  else
    ({ s with
         activeProcesses := removeKey s.activeProcesses cameraId,
         cameraStates :=
           setKey s.cameraStates cameraId { cs with state := .SAVING },
         pendingSave := s.pendingSave ++ [(cameraId, cs.currentFile)] },
     [])

/-- Completion of _saveRecording: the awaited addRecording resolves
(appending the captured filename to the storage index and emitting
recordingComplete), then the camera transitions to RESET and the
reset_(id) timer starts. -/
def saveComplete (s : RecorderSt) (cameraId : String)
    (captured : Option String) : RecorderSt × List RecEvent :=
  let (s₁, evs) :=
    match captured with
    | some file =>
        ({ s with indexedFiles := s.indexedFiles ++ [(cameraId, file)] },
         [RecEvent.recordingComplete cameraId (getCamera s cameraId).currentFile])
    | none => (s, [])
  let cs := getCamera s₁ cameraId
  ({ s₁ with
       cameraStates :=
         setKey s₁.cameraStates cameraId { cs with state := .RESET },
       resetTimer := addTimer s₁.resetTimer cameraId },
   evs)

/-- The reset_(id) timer callback from _onReset: return to IDLE and
clear currentFile and startTime. -/
def onResetFire (s : RecorderSt) (cameraId : String) :
    RecorderSt × List RecEvent :=
  let cs := getCamera s cameraId
  ({ s with
       cameraStates :=
         setKey s.cameraStates cameraId
           { cs with state := .IDLE, currentFile := none, startTime := none } },
   [RecEvent.recordingReady cameraId])

/-- _handleRecordingError: stop the recording timer, drop the process
bookkeeping, force phase RESET, start the reset timer (via _onReset)
and emit recordingError. -/
def handleRecordingError (s : RecorderSt) (cameraId : String) :
    RecorderSt × List RecEvent :=
  let s₁ : RecorderSt :=
    { s with
        recordingTimer := removeTimer s.recordingTimer cameraId,
        activeProcesses := removeKey s.activeProcesses cameraId }
  let cs := getCamera s₁ cameraId
  ({ s₁ with
       cameraStates :=
         setKey s₁.cameraStates cameraId { cs with state := .RESET },
       resetTimer := addTimer s₁.resetTimer cameraId },
   [RecEvent.recordingError cameraId])

/-- forceStop: cancel both timers, stop the capture process and reset
directly to IDLE, whatever the current phase. -/
def forceStop (s : RecorderSt) (cameraId : String) :
    RecorderSt × List RecEvent :=
  let s₁ : RecorderSt :=
    { s with
        recordingTimer := removeTimer s.recordingTimer cameraId,
        resetTimer := removeTimer s.resetTimer cameraId,
        activeProcesses := removeKey s.activeProcesses cameraId }
  let cs := getCamera s₁ cameraId
  ({ s₁ with
       cameraStates :=
         setKey s₁.cameraStates cameraId
           { cs with state := .IDLE, currentFile := none, startTime := none } },
   [])

/-- Operations of the controller: the public calls and the
asynchronous callbacks. -/
inductive RecOp where
  | start (cameraId : String) (now : Timestamp) (rtspUrl : Option String)
  | timerEnd (cameraId : String)
  | saveDone (cameraId : String)
  | resetFire (cameraId : String)
  | ffmpegError (cameraId : String)
  | force (cameraId : String)

/-- Pop the first pending _saveRecording continuation of a camera. -/
def popSave : List (String × Option String) → String →
    Option (Option String × List (String × Option String))
  | [], _ => none
  | (k, f) :: rest, cameraId =>
      if k = cameraId then some (f, rest)
      else
        match popSave rest cameraId with
        | some (f', rest') => some (f', (k, f) :: rest')
        | none => none

/-- One controller step.  A timer firing consumes its pending entry;
firings of cancelled (absent) timers and completions of absent save
continuations are no-ops. -/
def recStep (s : RecorderSt) : RecOp → RecorderSt × List RecEvent
  | .start cameraId now url =>
      let r := startRecording s cameraId now url
      (r.2.1, r.2.2)
  | .timerEnd cameraId =>
      if cameraId ∈ s.recordingTimer then
        onTimerEnd { s with recordingTimer := removeTimer s.recordingTimer cameraId }
          cameraId
      else (s, [])
  | .saveDone cameraId =>
      match popSave s.pendingSave cameraId with
      | some (captured, rest) =>
          saveComplete { s with pendingSave := rest } cameraId captured
      | none => (s, [])
  | .resetFire cameraId =>
      if cameraId ∈ s.resetTimer then
        onResetFire { s with resetTimer := removeTimer s.resetTimer cameraId }
          cameraId
      else (s, [])
  | .ffmpegError cameraId => handleRecordingError s cameraId
  | .force cameraId => forceStop s cameraId

/-- Run a sequence of controller operations from the initial state. -/
def runRec (ops : List RecOp) : RecorderSt :=
  ops.foldl (fun s op => (recStep s op).1) initialRecorderSt

/-- The four transitions the specification declares legal. -/
def legalTransition (a b : RecordingState) : Prop :=
  (a = .IDLE ∧ b = .RECORDING) ∨ (a = .RECORDING ∧ b = .SAVING) ∨
  (a = .SAVING ∧ b = .RESET) ∨ (a = .RESET ∧ b = .IDLE)

instance (a b : RecordingState) : Decidable (legalTransition a b) := by
  unfold legalTransition
  infer_instance

/-! ### Alarm Sequencer (src/edge-server/src/modules/AlarmController.js) -/

/-- Per-camera entry of the cameraAlarms map. -/
structure CamAlarm where
  isActive : Bool
  triggeredAt : Timestamp
  deriving DecidableEq, Repr

inductive AlarmEvent where
  | hwActivate
  | hwDeactivate
  | alarmTriggered (cameraId : String)
  | alarmStopped (cameraId : Option String)
  | alarmArmed
  | alarmDisarmed
  deriving DecidableEq, Repr

/-- Alarm controller state: global mode, the cameraAlarms map, the
pending per-camera alarm_(id) timers and the alarm_cooldown timer. -/
structure AlarmSt where
  state : AlarmState
  cameraAlarms : List (String × CamAlarm)
  alarmTimers : List String
  cooldownTimer : Bool
  deriving DecidableEq, Repr

def initialAlarmSt : AlarmSt :=
  { state := .ARMED, cameraAlarms := [], alarmTimers := [],
    cooldownTimer := false }

/-- trigger: rejected while DISARMED, while COOLDOWN, or while this
camera's entry is already active; otherwise set TRIGGERED, record the
active entry, sound the hardware and start the alarm_(id) timer. -/
def trigger (s : AlarmSt) (cameraId : String) (now : Timestamp) :
    Bool × AlarmSt × List AlarmEvent :=
  if s.state = AlarmState.DISARMED then (false, s, [])
  else if s.state = AlarmState.COOLDOWN then (false, s, [])
  else if ((s.cameraAlarms.lookup cameraId).map (·.isActive)).getD false then
    (false, s, [])
  else
    (true,
     { s with
         state := .TRIGGERED,
         cameraAlarms :=
           setKey s.cameraAlarms cameraId { isActive := true, triggeredAt := now },
         alarmTimers := addTimer s.alarmTimers cameraId },
     [AlarmEvent.hwActivate, AlarmEvent.alarmTriggered cameraId])

/-- _onAlarmTimeout: deactivate this camera's entry; when no entry
remains active, stop the hardware and enter COOLDOWN (starting the
fixed cooldown timer). -/
def onAlarmTimeout (s : AlarmSt) (cameraId : String) :
    AlarmSt × List AlarmEvent :=
  let alarms :=
    match s.cameraAlarms.lookup cameraId with
    | some a => setKey s.cameraAlarms cameraId { a with isActive := false }
    | none => s.cameraAlarms
  let anyActive := alarms.any (fun p => p.2.isActive)
  if anyActive then
    ({ s with cameraAlarms := alarms },
     [AlarmEvent.alarmStopped (some cameraId)])
  else
    ({ s with cameraAlarms := alarms, state := .COOLDOWN, cooldownTimer := true },
     [AlarmEvent.hwDeactivate, AlarmEvent.alarmStopped (some cameraId)])

/-- The alarm_cooldown timer callback: return to ARMED. -/
def onCooldownEnd (s : AlarmSt) : AlarmSt × List AlarmEvent :=
  ({ s with state := .ARMED, cooldownTimer := false }, [])

/-- stop: with a camera id, cancel that camera's timer and deactivate
its entry; with none, cancel every camera's timer and deactivate every
entry.  Either way force the hardware off and reset the mode to ARMED
(bypassing cooldown). -/
def stop (s : AlarmSt) (cameraId : Option String) :
    AlarmSt × List AlarmEvent :=
  let s₁ :=
    match cameraId with
    | some cid =>
        { s with
            alarmTimers := removeTimer s.alarmTimers cid,
            cameraAlarms :=
              match s.cameraAlarms.lookup cid with
              | some a => setKey s.cameraAlarms cid { a with isActive := false }
              | none => s.cameraAlarms }
    | none =>
        { s with
            alarmTimers :=
              s.alarmTimers.filter
                (fun k => ¬ (s.cameraAlarms.lookup k).isSome),
            cameraAlarms :=
              s.cameraAlarms.map
                (fun (p : String × CamAlarm) =>
                  (p.1, { p.2 with isActive := false })) }
  ({ s₁ with state := .ARMED },
   [AlarmEvent.hwDeactivate, AlarmEvent.alarmStopped cameraId])

/-- arm: set mode ARMED unconditionally. -/
def arm (s : AlarmSt) : AlarmSt × List AlarmEvent :=
  ({ s with state := .ARMED }, [AlarmEvent.alarmArmed])

/-- disarm: stop all alarms, then set mode DISARMED. -/
def disarm (s : AlarmSt) : AlarmSt × List AlarmEvent :=
  let (s₁, evs) := stop s none
  ({ s₁ with state := .DISARMED }, evs ++ [AlarmEvent.alarmDisarmed])

inductive AlarmOp where
  | triggerOp (cameraId : String) (now : Timestamp)
  | timeout (cameraId : String)
  | cooldownEnd
  | stopOp (cameraId : Option String)
  | armOp
  | disarmOp

/-- One alarm-sequencer step; timer firings consume their pending
entry and cancelled timers never fire. -/
def alarmStep (s : AlarmSt) : AlarmOp → AlarmSt × List AlarmEvent
  | .triggerOp cameraId now =>
      let r := trigger s cameraId now
      (r.2.1, r.2.2)
  | .timeout cameraId =>
      if cameraId ∈ s.alarmTimers then
        onAlarmTimeout { s with alarmTimers := removeTimer s.alarmTimers cameraId }
          cameraId
      else (s, [])
  | .cooldownEnd => if s.cooldownTimer then onCooldownEnd s else (s, [])
  | .stopOp cameraId => stop s cameraId
  | .armOp => arm s
  | .disarmOp => disarm s

/-- Run a sequence of alarm operations from the initial ARMED state. -/
def runAlarm (ops : List AlarmOp) : AlarmSt :=
  ops.foldl (fun s op => (alarmStep s op).1) initialAlarmSt

/-! ### Orchestrator motion listener (unnamed source part 005) -/

inductive OrchCall where
  | broadcastMotion (cameraId : String)
  | alarmTrigger (cameraId : String)
  | recStart (cameraId : String)
  deriving DecidableEq, Repr

/-- The motionDetector.on('motion') listener of the edge server:
broadcast the event, trigger the alarm, start recording — for every
motion event, with no inspection of the event's type field. -/
def onMotionEvent (cameraId : String) (_event : MotionEvent) : List OrchCall :=
  [OrchCall.broadcastMotion cameraId,
   OrchCall.alarmTrigger cameraId,
   OrchCall.recStart cameraId]

/-! ### Capacity Manager (src/edge-server/src/modules/StorageManager.js)

The on-disk artifact of each index entry is modelled by the entry's
size (fs.stat of a present file; the manager tolerates missing files,
whose contribution is zero, so size is the stat outcome).  The
persisted index file is carried alongside the in-memory list so that
persistence claims are expressible.  Division on usage percentages is
avoided by comparing cross-multiplied integers, which is exact for the
real-number comparisons the source performs. -/

structure IndexEntry where
  entryId : String
  cameraId : String
  filename : String
  timestamp : Nat
  duration : Nat
  size : Nat
  downloaded : Bool
  deriving DecidableEq, Repr

structure StorageSt where
  recordings : List IndexEntry
  persistedIndex : List IndexEntry
  totalBytes : Nat
  maxUsagePercent : Nat
  autoCleanup : Bool
  deriving DecidableEq, Repr

/-- usedBytes as computed by _updateStorageStats: the summed stat sizes
of the indexed files. -/
def usedBytes (recs : List IndexEntry) : Nat :=
  (recs.map (fun e => e.size)).sum

/-- usagePercent ≥ p, i.e. usedBytes / totalBytes * 100 ≥ p. -/
def usageAtLeast (recs : List IndexEntry) (totalBytes p : Nat) : Bool :=
  p * totalBytes ≤ usedBytes recs * 100

/-- usagePercent > p, i.e. usedBytes / totalBytes * 100 > p. -/
def usageAbove (recs : List IndexEntry) (totalBytes p : Nat) : Bool :=
  p * totalBytes < usedBytes recs * 100

/-- The file-unlink plus index-splice core of deleteRecording: remove
the first index entry carrying the filename (fs.unlink tolerates a
missing file). -/
def spliceEntry (recs : List IndexEntry) (filename : String) :
    List IndexEntry :=
  match recs.findIdx? (fun e => e.filename = filename) with
  | some i => recs.eraseIdx i
  | none => recs

/-- Comparator of _performCleanup's sort: ascending creation time. -/
def sortByTimestamp (recs : List IndexEntry) : List IndexEntry :=
  recs.mergeSort (fun a b => a.timestamp ≤ b.timestamp)

/-- The cleanup loop of _performCleanup: while usage stays above
maxUsagePercent − 10 and sorted entries remain, delete the oldest
(deleteRecording with updateIndex = false, which never rewrites the
persisted index) and recompute the stats.  The source's re-entrant
_updateStorageStats → _performCleanup call inside the loop deletes the
same ascending-by-timestamp prefix, so the single loop is its
sequential meaning.  Returns the surviving index and the deleted
entries in deletion order. -/
def cleanupLoop (target totalBytes : Nat) :
    List IndexEntry → List IndexEntry →
    List IndexEntry × List IndexEntry
  | [], recs => (recs, [])
  | oldest :: rest, recs =>
      if usageAbove recs totalBytes target then
        let recs' := spliceEntry recs oldest.filename
        let r := cleanupLoop target totalBytes rest recs'
        (r.1, oldest :: r.2)
      else (recs, [])

/-- _performCleanup: snapshot-sort the index ascending by creation
time, then run the deletion loop down to maxUsagePercent − 10. -/
def performCleanup (s : StorageSt) : StorageSt × List IndexEntry :=
  let sorted := sortByTimestamp s.recordings
  let r := cleanupLoop (s.maxUsagePercent - 10) s.totalBytes sorted s.recordings
  ({ s with recordings := r.1 }, r.2)

/-- _updateStorageStats: recompute the stats and, when autoCleanup is
on and usage has reached the ceiling, run _performCleanup. -/
def updateStorageStats (s : StorageSt) : StorageSt :=
  if s.autoCleanup && usageAtLeast s.recordings s.totalBytes s.maxUsagePercent then
    (performCleanup s).1
  else s

/-- _saveIndex: rewrite the full index to durable storage. -/
def saveIndex (s : StorageSt) : StorageSt :=
  { s with persistedIndex := s.recordings }

/-- addRecording: push the entry, persist the index, then refresh the
stats (which may trigger cleanup). -/
def addRecording (s : StorageSt) (e : IndexEntry) : StorageSt :=
  updateStorageStats (saveIndex { s with recordings := s.recordings ++ [e] })

/-- deleteRecording with updateIndex = true: unlink and splice, persist
the index, then refresh the stats (which may trigger cleanup). -/
def deleteRecordingStandalone (s : StorageSt) (filename : String) : StorageSt :=
  updateStorageStats
    (saveIndex { s with recordings := spliceEntry s.recordings filename })

/-! ### Claim theorems -/

/-- Sample second-resolution timestamp for concrete scenarios. -/
def sampleTime : Timestamp :=
  { year := 2026, month := 1, day := 4, hour := 14, minute := 32, second := 10 }

theorem startRecording_idle_eq (s : RecorderSt) (cameraId : String)
    (now : Timestamp) (url : Option String)
    (h : (getCamera s cameraId).state = RecordingState.IDLE) :
    startRecording s cameraId now url =
      (true,
       { s with
           cameraStates := setKey s.cameraStates cameraId
             { state := RecordingState.RECORDING,
               currentFile := some (generateVideoFilename cameraId now),
               startTime := some now,
               rtspUrl := url.orElse (fun _ => (getCamera s cameraId).rtspUrl) },
           activeProcesses := setKey s.activeProcesses cameraId
             { simulated :=
                 (url.orElse (fun _ => (getCamera s cameraId).rtspUrl)).isNone },
           recordingTimer := addTimer s.recordingTimer cameraId },
       [RecEvent.recordingStarted cameraId (generateVideoFilename cameraId now)]) := by
  simp only [startRecording]
  rw [if_neg (by simp [h])]

theorem startRecording_blocked_eq (s : RecorderSt) (cameraId : String)
    (now : Timestamp) (url : Option String)
    (h : (getCamera s cameraId).state ≠ RecordingState.IDLE) :
    startRecording s cameraId now url = (false, s, []) := by
  simp only [startRecording]
  rw [if_pos h]

theorem onTimerEnd_recording_eq (s : RecorderSt) (c : String)
    (h : (getCamera s c).state = RecordingState.RECORDING) :
    onTimerEnd s c =
      ({ s with
           activeProcesses := removeKey s.activeProcesses c,
           cameraStates := setKey s.cameraStates c
             { getCamera s c with state := RecordingState.SAVING },
           pendingSave := s.pendingSave ++ [(c, (getCamera s c).currentFile)] },
       []) := by
  simp only [onTimerEnd]
  rw [if_neg (by simp [h])]

theorem onTimerEnd_blocked_eq (s : RecorderSt) (c : String)
    (h : (getCamera s c).state ≠ RecordingState.RECORDING) :
    onTimerEnd s c = (s, []) := by
  simp only [onTimerEnd]
  rw [if_pos h]

theorem saveComplete_some_eq (s : RecorderSt) (c file : String) :
    saveComplete s c (some file) =
      ({ s with
           indexedFiles := s.indexedFiles ++ [(c, file)],
           cameraStates := setKey s.cameraStates c
             { getCamera s c with state := RecordingState.RESET },
           resetTimer := addTimer s.resetTimer c },
       [RecEvent.recordingComplete c (getCamera s c).currentFile]) := rfl

theorem saveComplete_none_eq (s : RecorderSt) (c : String) :
    saveComplete s c none =
      ({ s with
           cameraStates := setKey s.cameraStates c
             { getCamera s c with state := RecordingState.RESET },
           resetTimer := addTimer s.resetTimer c },
       []) := rfl

theorem onResetFire_eq (s : RecorderSt) (c : String) :
    onResetFire s c =
      ({ s with
           cameraStates := setKey s.cameraStates c
             { getCamera s c with
                 state := RecordingState.IDLE, currentFile := none,
                 startTime := none } },
       [RecEvent.recordingReady c]) := rfl

theorem handleRecordingError_eq (s : RecorderSt) (c : String) :
    handleRecordingError s c =
      ({ s with
           recordingTimer := removeTimer s.recordingTimer c,
           activeProcesses := removeKey s.activeProcesses c,
           cameraStates := setKey s.cameraStates c
             { getCamera s c with state := RecordingState.RESET },
           resetTimer := addTimer s.resetTimer c },
       [RecEvent.recordingError c]) := rfl

theorem forceStop_eq (s : RecorderSt) (c : String) :
    forceStop s c =
      ({ s with
           recordingTimer := removeTimer s.recordingTimer c,
           resetTimer := removeTimer s.resetTimer c,
           activeProcesses := removeKey s.activeProcesses c,
           cameraStates := setKey s.cameraStates c
             { getCamera s c with
                 state := RecordingState.IDLE, currentFile := none,
                 startTime := none } },
       []) := rfl

theorem lookup_setKey_cases {α : Type} (l : List (String × α)) (k k' : String)
    (v : α) :
    (setKey l k v).lookup k' = if k' = k then some v else l.lookup k' := by
  by_cases h : k' = k
  · subst h
    simp [lookup_setKey]
  · simp [h, lookup_setKey_ne _ _ _ _ h]

/-- A pending reset_(id) timer implies phase RESET: preserved by every
controller operation. -/
theorem resetInv_step (s : RecorderSt) (op : RecOp)
    (h : ∀ id ∈ s.resetTimer, (getCamera s id).state = RecordingState.RESET) :
    ∀ id ∈ (recStep s op).1.resetTimer,
      (getCamera (recStep s op).1 id).state = RecordingState.RESET := by
  cases op with
  | start c now url =>
      by_cases hg : (getCamera s c).state = RecordingState.IDLE
      · intro id hid
        simp only [recStep, startRecording_idle_eq s c now url hg] at hid ⊢
        by_cases hc : id = c
        · subst hc
          have h1 := h id hid
          rw [h1] at hg
          cases hg
        · have h1 := h id hid
          simp only [getCamera] at h1 ⊢
          simpa [lookup_setKey_cases, hc] using h1
      · intro id hid
        simp only [recStep, startRecording_blocked_eq s c now url hg] at hid ⊢
        exact h id hid
  | timerEnd c =>
      intro id hid
      simp only [recStep] at hid ⊢
      by_cases hmem : c ∈ s.recordingTimer
      · rw [if_pos hmem] at hid ⊢
        by_cases hg : (getCamera
            { s with recordingTimer := removeTimer s.recordingTimer c }
            c).state = RecordingState.RECORDING
        · rw [onTimerEnd_recording_eq _ _ hg] at hid ⊢
          by_cases hc : id = c
          · subst hc
            have h1 := h id hid
            have h2 : (getCamera s id).state = RecordingState.RECORDING := hg
            rw [h1] at h2
            cases h2
          · have h1 := h id hid
            simp only [getCamera] at h1 ⊢
            simpa [lookup_setKey_cases, hc] using h1
        · rw [onTimerEnd_blocked_eq _ _ hg] at hid ⊢
          exact h id hid
      · rw [if_neg hmem] at hid ⊢
        exact h id hid
  | saveDone c =>
      intro id hid
      simp only [recStep] at hid ⊢
      cases hpop : popSave s.pendingSave c with
      | none =>
          simp only [hpop] at hid ⊢
          exact h id hid
      | some pr =>
          obtain ⟨captured, rest⟩ := pr
          simp only [hpop] at hid ⊢
          cases captured with
          | none =>
              rw [saveComplete_none_eq] at hid ⊢
              by_cases hc : id = c
              · subst hc
                simp only [getCamera]
                simp [lookup_setKey_cases]
              · have hid₂ : id ∈ s.resetTimer := by
                  rcases (mem_addTimer _ _ _).mp hid with h₂ | h₂
                  · exact absurd h₂ hc
                  · exact h₂
                have h1 := h id hid₂
                simp only [getCamera] at h1 ⊢
                simpa [lookup_setKey_cases, hc] using h1
          | some file =>
              rw [saveComplete_some_eq] at hid ⊢
              by_cases hc : id = c
              · subst hc
                simp only [getCamera]
                simp [lookup_setKey_cases]
              · have hid₂ : id ∈ s.resetTimer := by
                  rcases (mem_addTimer _ _ _).mp hid with h₂ | h₂
                  · exact absurd h₂ hc
                  · exact h₂
                have h1 := h id hid₂
                simp only [getCamera] at h1 ⊢
                simpa [lookup_setKey_cases, hc] using h1
  | resetFire c =>
      intro id hid
      simp only [recStep] at hid ⊢
      by_cases hmem : c ∈ s.resetTimer
      · rw [if_pos hmem] at hid ⊢
        rw [onResetFire_eq] at hid ⊢
        have hid₂ := (mem_removeTimer _ _ _).mp hid
        have h1 := h id hid₂.1
        simp only [getCamera] at h1 ⊢
        simpa [lookup_setKey_cases, hid₂.2] using h1
      · rw [if_neg hmem] at hid ⊢
        exact h id hid
  | ffmpegError c =>
      intro id hid
      simp only [recStep, handleRecordingError_eq] at hid ⊢
      by_cases hc : id = c
      · subst hc
        simp only [getCamera]
        simp [lookup_setKey_cases]
      · have hid₂ : id ∈ s.resetTimer := by
          rcases (mem_addTimer _ _ _).mp hid with h₂ | h₂
          · exact absurd h₂ hc
          · exact h₂
        have h1 := h id hid₂
        simp only [getCamera] at h1 ⊢
        simpa [lookup_setKey_cases, hc] using h1
  | force c =>
      intro id hid
      simp only [recStep, forceStop_eq] at hid ⊢
      have hid₂ := (mem_removeTimer _ _ _).mp hid
      have h1 := h id hid₂.1
      simp only [getCamera] at h1 ⊢
      simpa [lookup_setKey_cases, hid₂.2] using h1

/-- The reset-timer invariant holds in every reachable controller
state. -/
theorem resetInv_runRec (ops : List RecOp) :
    ∀ id ∈ (runRec ops).resetTimer,
      (getCamera (runRec ops) id).state = RecordingState.RESET := by
  suffices h : ∀ (l : List RecOp) (s : RecorderSt),
      (∀ id ∈ s.resetTimer, (getCamera s id).state = RecordingState.RESET) →
      ∀ id ∈ (l.foldl (fun s op => (recStep s op).1) s).resetTimer,
        (getCamera (l.foldl (fun s op => (recStep s op).1) s) id).state =
          RecordingState.RESET by
    exact h ops initialRecorderSt (by intro id hid; cases hid)
  intro l
  induction l with
  | nil => intro s hs; simpa using hs
  | cons op rest ih =>
      intro s hs
      exact ih _ (resetInv_step s op hs)

/-- C1: startRecording returns true and moves the camera's phase to
RECORDING when the phase is IDLE; when the phase is not IDLE it returns
false and changes nothing (the whole controller state comes back
unchanged and no event is emitted); consequently two calls in immediate
succession from IDLE yield exactly one true and one false. -/
theorem C1_startRecording_guard (s : RecorderSt) (cameraId : String)
    (now now₂ : Timestamp) (url url₂ : Option String) :
    ((getCamera s cameraId).state = RecordingState.IDLE →
      (startRecording s cameraId now url).1 = true ∧
      (getCamera (startRecording s cameraId now url).2.1 cameraId).state =
        RecordingState.RECORDING ∧
      (startRecording (startRecording s cameraId now url).2.1 cameraId
        now₂ url₂).1 = false) ∧
    ((getCamera s cameraId).state ≠ RecordingState.IDLE →
      startRecording s cameraId now url = (false, s, [])) := by
  constructor
  · intro h
    rw [startRecording_idle_eq s cameraId now url h]
    have h₂ : (getCamera
        (startRecording s cameraId now url).2.1 cameraId).state =
        RecordingState.RECORDING := by
      rw [startRecording_idle_eq s cameraId now url h]
      simp [getCamera, lookup_setKey]
    refine ⟨rfl, ?_, ?_⟩
    · rw [← startRecording_idle_eq s cameraId now url h]
      exact h₂
    · rw [← startRecording_idle_eq s cameraId now url h,
        startRecording_blocked_eq _ _ _ _ (by rw [h₂]; simp)]
  · intro h
    rw [startRecording_blocked_eq s cameraId now url h]

/-- Witness for C1: both calls from the initial (IDLE) state of camera
CAM1, the first succeeding and the second rejected. -/
theorem C1_startRecording_guard_witness :
    (startRecording initialRecorderSt "CAM1" sampleTime none).1 = true ∧
    (startRecording (startRecording initialRecorderSt "CAM1" sampleTime none).2.1
      "CAM1" sampleTime none).1 = false :=
  let h := (C1_startRecording_guard initialRecorderSt "CAM1" sampleTime sampleTime
    none none).1 rfl
  ⟨h.1, h.2.2⟩

/-- C2 (counterexample): the claim that every phase change performed by
a controller operation is one of the four transitions IDLE→RECORDING,
RECORDING→SAVING, SAVING→RESET, RESET→IDLE is false: invoking forceStop
on camera A while it is RECORDING changes the phase RECORDING→IDLE,
which is not a legal transition of that list. -/
theorem C2_phase_counterexample :
    (getCamera (runRec [RecOp.start "A" sampleTime none]) "A").state =
      RecordingState.RECORDING ∧
    (getCamera (recStep (runRec [RecOp.start "A" sampleTime none])
        (RecOp.force "A")).1 "A").state = RecordingState.IDLE ∧
    ¬ legalTransition RecordingState.RECORDING RecordingState.IDLE := by
  refine ⟨rfl, rfl, ?_⟩
  decide

/-- C2 (amended): phase changes are governed per operation — a
successful startRecording performs IDLE→RECORDING, the duration-timer
firing performs RECORDING→SAVING, the reset-timer firing performs
RESET→IDLE, while save completion and error handling move the camera to
RESET from whatever its phase was and forceStop moves it to IDLE from
whatever its phase was; no operation changes the phase of any other
camera. -/
theorem C2_phase_transitions (ops : List RecOp) (op : RecOp) (id : String)
    (hchange : (getCamera (recStep (runRec ops) op).1 id).state ≠
      (getCamera (runRec ops) id).state) :
    (match op with
     | RecOp.start c _ _ => c = id ∧
         (getCamera (runRec ops) id).state = RecordingState.IDLE ∧
         (getCamera (recStep (runRec ops) op).1 id).state =
           RecordingState.RECORDING
     | RecOp.timerEnd c => c = id ∧
         (getCamera (runRec ops) id).state = RecordingState.RECORDING ∧
         (getCamera (recStep (runRec ops) op).1 id).state =
           RecordingState.SAVING
     | RecOp.saveDone c => c = id ∧
         (getCamera (recStep (runRec ops) op).1 id).state =
           RecordingState.RESET
     | RecOp.resetFire c => c = id ∧
         (getCamera (runRec ops) id).state = RecordingState.RESET ∧
         (getCamera (recStep (runRec ops) op).1 id).state =
           RecordingState.IDLE
     | RecOp.ffmpegError c => c = id ∧
         (getCamera (recStep (runRec ops) op).1 id).state =
           RecordingState.RESET
     | RecOp.force c => c = id ∧
         (getCamera (recStep (runRec ops) op).1 id).state =
           RecordingState.IDLE) := by
  cases op with
  | start c now url =>
      by_cases hg : (getCamera (runRec ops) c).state = RecordingState.IDLE
      · simp only [recStep, startRecording_idle_eq _ c now url hg] at hchange ⊢
        by_cases hc : c = id
        · subst hc
          refine ⟨rfl, hg, ?_⟩
          simp only [getCamera]
          simp [lookup_setKey_cases]
        · exfalso
          apply hchange
          simp only [getCamera]
          simp [lookup_setKey_cases, Ne.symm hc]
      · simp only [recStep, startRecording_blocked_eq _ c now url hg] at hchange
        exact absurd rfl hchange
  | timerEnd c =>
      simp only [recStep] at hchange ⊢
      by_cases hmem : c ∈ (runRec ops).recordingTimer
      · rw [if_pos hmem] at hchange ⊢
        by_cases hg : (getCamera
            { runRec ops with
                recordingTimer := removeTimer (runRec ops).recordingTimer c }
            c).state = RecordingState.RECORDING
        · rw [onTimerEnd_recording_eq _ _ hg] at hchange ⊢
          by_cases hc : c = id
          · subst hc
            refine ⟨rfl, hg, ?_⟩
            simp only [getCamera]
            simp [lookup_setKey_cases]
          · exfalso
            apply hchange
            simp only [getCamera]
            simp [lookup_setKey_cases, Ne.symm hc]
        · rw [onTimerEnd_blocked_eq _ _ hg] at hchange
          exact absurd rfl hchange
      · rw [if_neg hmem] at hchange
        exact absurd rfl hchange
  | saveDone c =>
      simp only [recStep] at hchange ⊢
      cases hpop : popSave (runRec ops).pendingSave c with
      | none =>
          simp only [hpop] at hchange
          exact absurd rfl hchange
      | some pr =>
          obtain ⟨captured, rest⟩ := pr
          simp only [hpop] at hchange ⊢
          cases captured with
          | none =>
              rw [saveComplete_none_eq] at hchange ⊢
              by_cases hc : c = id
              · subst hc
                refine ⟨rfl, ?_⟩
                simp only [getCamera]
                simp [lookup_setKey_cases]
              · exfalso
                apply hchange
                simp only [getCamera]
                simp [lookup_setKey_cases, Ne.symm hc]
          | some file =>
              rw [saveComplete_some_eq] at hchange ⊢
              by_cases hc : c = id
              · subst hc
                refine ⟨rfl, ?_⟩
                simp only [getCamera]
                simp [lookup_setKey_cases]
              · exfalso
                apply hchange
                simp only [getCamera]
                simp [lookup_setKey_cases, Ne.symm hc]
  | resetFire c =>
      simp only [recStep] at hchange ⊢
      by_cases hmem : c ∈ (runRec ops).resetTimer
      · rw [if_pos hmem] at hchange ⊢
        rw [onResetFire_eq] at hchange ⊢
        by_cases hc : c = id
        · subst hc
          refine ⟨rfl, resetInv_runRec ops c hmem, ?_⟩
          simp only [getCamera]
          simp [lookup_setKey_cases]
        · exfalso
          apply hchange
          simp only [getCamera]
          simp [lookup_setKey_cases, Ne.symm hc]
      · rw [if_neg hmem] at hchange
        exact absurd rfl hchange
  | ffmpegError c =>
      simp only [recStep, handleRecordingError_eq] at hchange ⊢
      by_cases hc : c = id
      · subst hc
        refine ⟨rfl, ?_⟩
        simp only [getCamera]
        simp [lookup_setKey_cases]
      · exfalso
        apply hchange
        simp only [getCamera]
        simp [lookup_setKey_cases, Ne.symm hc]
  | force c =>
      simp only [recStep, forceStop_eq] at hchange ⊢
      by_cases hc : c = id
      · subst hc
        refine ⟨rfl, ?_⟩
        simp only [getCamera]
        simp [lookup_setKey_cases]
      · exfalso
        apply hchange
        simp only [getCamera]
        simp [lookup_setKey_cases, Ne.symm hc]

/-- Witness for the amended C2: the forceStop of camera A while
RECORDING lands in IDLE. -/
theorem C2_phase_transitions_witness :
    "A" = "A" ∧
    (getCamera (recStep (runRec [RecOp.start "A" sampleTime none])
        (RecOp.force "A")).1 "A").state = RecordingState.IDLE :=
  C2_phase_transitions [RecOp.start "A" sampleTime none] (RecOp.force "A") "A"
    (by decide)

/-- C7: an ffmpeg error reported while the camera is RECORDING cancels
the duration timer, clears the process bookkeeping, emits
recordingError, adds no index entry and leaves no pending save for the
cycle, moves the phase to RESET with the reset timer pending, and the
subsequent reset-timer firing brings the phase to IDLE. -/
theorem C7_capture_error (s : RecorderSt) (cameraId : String)
    (h : (getCamera s cameraId).state = RecordingState.RECORDING) :
    cameraId ∉ (recStep s (RecOp.ffmpegError cameraId)).1.recordingTimer ∧
    (recStep s (RecOp.ffmpegError cameraId)).1.activeProcesses.lookup cameraId =
      none ∧
    (recStep s (RecOp.ffmpegError cameraId)).2 =
      [RecEvent.recordingError cameraId] ∧
    (getCamera (recStep s (RecOp.ffmpegError cameraId)).1 cameraId).state =
      RecordingState.RESET ∧
    cameraId ∈ (recStep s (RecOp.ffmpegError cameraId)).1.resetTimer ∧
    (recStep s (RecOp.ffmpegError cameraId)).1.indexedFiles = s.indexedFiles ∧
    (recStep s (RecOp.ffmpegError cameraId)).1.pendingSave = s.pendingSave ∧
    (getCamera (recStep (recStep s (RecOp.ffmpegError cameraId)).1
        (RecOp.resetFire cameraId)).1 cameraId).state = RecordingState.IDLE := by
  refine ⟨?_, ?_, ?_, ?_, ?_, ?_, ?_, ?_⟩
  · simp [recStep, handleRecordingError, mem_removeTimer]
  · simp [recStep, handleRecordingError, lookup_removeKey]
  · simp [recStep, handleRecordingError]
  · simp [recStep, handleRecordingError, getCamera, lookup_setKey]
  · simp [recStep, handleRecordingError, mem_addTimer]
  · simp [recStep, handleRecordingError]
  · simp [recStep, handleRecordingError]
  · have hmem : cameraId ∈
        (recStep s (RecOp.ffmpegError cameraId)).1.resetTimer := by
      simp [recStep, handleRecordingError, mem_addTimer]
    simp [recStep, handleRecordingError, onResetFire, getCamera, lookup_setKey,
      mem_addTimer]

/-- Witness for C7: camera A erroring right after a successful start. -/
theorem C7_capture_error_witness :
    (getCamera (recStep (runRec [RecOp.start "A" sampleTime none])
        (RecOp.ffmpegError "A")).1 "A").state = RecordingState.RESET ∧
    (getCamera (recStep (recStep (runRec [RecOp.start "A" sampleTime none])
        (RecOp.ffmpegError "A")).1 (RecOp.resetFire "A")).1 "A").state =
      RecordingState.IDLE :=
  let h := C7_capture_error (runRec [RecOp.start "A" sampleTime none]) "A" rfl
  ⟨h.2.2.2.1, h.2.2.2.2.2.2.2⟩

theorem mem_setKey {α : Type} (l : List (String × α)) (k : String) (v : α) :
    (k, v) ∈ setKey l k v := by
  induction l with
  | nil => simp [setKey]
  | cons hd tl ih =>
      obtain ⟨k', v'⟩ := hd
      by_cases h : k' = k
      · simp [setKey, h]
      · simp only [setKey, if_neg h]
        exact List.mem_cons_of_mem _ ih

/-- Mode TRIGGERED implies an active per-camera entry: preserved by
every alarm-sequencer operation. -/
theorem triggeredInv_step (s : AlarmSt) (op : AlarmOp)
    (h : s.state = AlarmState.TRIGGERED →
      s.cameraAlarms.any (fun p => p.2.isActive) = true) :
    (alarmStep s op).1.state = AlarmState.TRIGGERED →
      (alarmStep s op).1.cameraAlarms.any (fun p => p.2.isActive) = true := by
  cases op with
  | triggerOp c now =>
      simp only [alarmStep]
      by_cases h₁ : s.state = AlarmState.DISARMED
      · simp only [trigger, if_pos h₁]
        exact h
      · by_cases h₂ : s.state = AlarmState.COOLDOWN
        · simp only [trigger, if_neg h₁, if_pos h₂]
          exact h
        · by_cases h₃ : ((s.cameraAlarms.lookup c).map
              (fun a => a.isActive)).getD false = true
          · simp only [trigger, if_neg h₁, if_neg h₂, if_pos h₃]
            exact h
          · simp only [trigger, if_neg h₁, if_neg h₂, if_neg h₃]
            intro _
            exact List.any_eq_true.mpr
              ⟨(c, { isActive := true, triggeredAt := now }),
               mem_setKey _ _ _, by simp⟩
  | timeout c =>
      simp only [alarmStep]
      by_cases hmem : c ∈ s.alarmTimers
      · rw [if_pos hmem]
        simp only [onAlarmTimeout]
        split
        · rename_i hact
          intro _
          exact hact
        · intro ht
          simp at ht
      · rw [if_neg hmem]
        exact h
  | cooldownEnd =>
      simp only [alarmStep]
      by_cases hcd : s.cooldownTimer
      · rw [if_pos hcd]
        intro ht
        exact absurd ht (by simp [onCooldownEnd])
      · rw [if_neg hcd]
        exact h
  | stopOp cid =>
      simp only [alarmStep]
      intro ht
      exact absurd ht (by cases cid <;> simp [stop])
  | armOp =>
      simp only [alarmStep]
      intro ht
      exact absurd ht (by simp [arm])
  | disarmOp =>
      simp only [alarmStep]
      intro ht
      exact absurd ht (by simp [disarm, stop])

/-- C3 (counterexample): the claimed invariant "mode = TRIGGERED iff at
least one per-camera entry has isActive = true" fails on a reachable
state: after trigger(A), trigger(B), stop(A) the mode is ARMED while
camera B's entry is still active, so the right-to-left direction of the
iff is violated. -/
theorem C3_mode_counterexample :
    (runAlarm [AlarmOp.triggerOp "A" sampleTime, AlarmOp.triggerOp "B" sampleTime,
        AlarmOp.stopOp (some "A")]).state = AlarmState.ARMED ∧
    (runAlarm [AlarmOp.triggerOp "A" sampleTime, AlarmOp.triggerOp "B" sampleTime,
        AlarmOp.stopOp (some "A")]).cameraAlarms.any
      (fun p => p.2.isActive) = true ∧
    AlarmState.ARMED ≠ AlarmState.TRIGGERED := by
  refine ⟨rfl, rfl, ?_⟩
  decide

/-- C3 (amended): in every reachable alarm-sequencer state, mode
TRIGGERED implies that at least one per-camera entry is active; the
converse does not hold, since stop with a camera id (and arm) reset the
mode to ARMED while another camera's entry may remain active. -/
theorem C3_triggered_active (ops : List AlarmOp)
    (h : (runAlarm ops).state = AlarmState.TRIGGERED) :
    (runAlarm ops).cameraAlarms.any (fun p => p.2.isActive) = true := by
  suffices hgen : ∀ (l : List AlarmOp) (s : AlarmSt),
      (s.state = AlarmState.TRIGGERED →
        s.cameraAlarms.any (fun p => p.2.isActive) = true) →
      (l.foldl (fun s op => (alarmStep s op).1) s).state = AlarmState.TRIGGERED →
        (l.foldl (fun s op => (alarmStep s op).1) s).cameraAlarms.any
          (fun p => p.2.isActive) = true by
    exact hgen ops initialAlarmSt (by intro ht; cases ht) h
  intro l
  induction l with
  | nil => intro s hs; simpa using hs
  | cons op rest ih =>
      intro s hs
      exact ih _ (triggeredInv_step s op hs)

/-- Witness for the amended C3: after a single trigger the mode is
TRIGGERED and camera A's entry is active. -/
theorem C3_triggered_active_witness :
    (runAlarm [AlarmOp.triggerOp "A" sampleTime]).cameraAlarms.any
      (fun p => p.2.isActive) = true :=
  C3_triggered_active [AlarmOp.triggerOp "A" sampleTime] (by decide)

/-- C8: trigger returns false and changes no alarm state while the mode
is DISARMED or COOLDOWN or the camera's entry is already active;
otherwise it returns true, makes the mode TRIGGERED, records the camera
active with the trigger timestamp, starts the camera's duration timer
and issues the hardware activation. -/
theorem C8_trigger_guard (s : AlarmSt) (cameraId : String) (now : Timestamp) :
    ((s.state = AlarmState.DISARMED ∨ s.state = AlarmState.COOLDOWN ∨
        ((s.cameraAlarms.lookup cameraId).map (fun a => a.isActive)).getD false =
          true) →
      trigger s cameraId now = (false, s, [])) ∧
    (s.state ≠ AlarmState.DISARMED → s.state ≠ AlarmState.COOLDOWN →
      ((s.cameraAlarms.lookup cameraId).map (fun a => a.isActive)).getD false =
        false →
      (trigger s cameraId now).1 = true ∧
      (trigger s cameraId now).2.1.state = AlarmState.TRIGGERED ∧
      (trigger s cameraId now).2.1.cameraAlarms.lookup cameraId =
        some { isActive := true, triggeredAt := now } ∧
      cameraId ∈ (trigger s cameraId now).2.1.alarmTimers ∧
      (trigger s cameraId now).2.2 =
        [AlarmEvent.hwActivate, AlarmEvent.alarmTriggered cameraId]) := by
  constructor
  · rintro (h | h | h)
    · simp [trigger, h]
    · simp [trigger, h]
    · by_cases h₁ : s.state = AlarmState.DISARMED
      · simp [trigger, h₁]
      · by_cases h₂ : s.state = AlarmState.COOLDOWN
        · simp [trigger, h₁, h₂]
        · simp [trigger, h₁, h₂, h]
  · intro h₁ h₂ h₃
    refine ⟨?_, ?_, ?_, ?_, ?_⟩ <;>
      simp [trigger, h₁, h₂, h₃, lookup_setKey, mem_addTimer]

/-- Witness for C8: triggering camera A from the initial ARMED state. -/
theorem C8_trigger_guard_witness :
    (trigger initialAlarmSt "A" sampleTime).1 = true ∧
    (trigger initialAlarmSt "A" sampleTime).2.1.state = AlarmState.TRIGGERED :=
  let h := (C8_trigger_guard initialAlarmSt "A" sampleTime).2
    (by decide) (by decide) rfl
  ⟨h.1, h.2.1⟩

/-- The spec's scenario configuration: threshold 15, medium
sensitivity, 300 ms minimum duration, 5 percent minimum pixel change,
shadow and lighting rejection on. -/
def scenarioCfg : MotionConfig :=
  { threshold := 15, minDurationMs := 300, minPixelChangePercent := 5,
    ignoreShadows := true, ignoreLightingChanges := true,
    sensitivityLevel := .medium }

/-- The spec's scenario frame: level 50, 10 percent pixel change, no
shadow, no lighting change. -/
def scenarioFrame : FrameData :=
  { pixelChangePercent := 10, motionLevel := 50, hasShadow := false,
    hasLightingChange := false }

theorem validateMotion_scenario : validateMotion scenarioCfg scenarioFrame = true := by
  simp only [validateMotion, scenarioCfg, scenarioFrame, sensitivityMap]
  norm_num

/-- One frame within a window shorter than minDurationMs emits no
confirmed motion event and keeps the episode start inside the window. -/
theorem stepFrame_short (cfg : MotionConfig) (d : FrameData) (st : MotionState)
    (now lo hi : Nat) (hspan : hi < lo + cfg.minDurationMs)
    (hnow₁ : lo ≤ now) (hnow₂ : now ≤ hi)
    (hst : ∀ t ∈ st.motionStartTime, lo ≤ t) :
    countStart (stepFrame cfg st d now).2 = 0 ∧
    (∀ t ∈ (stepFrame cfg st d now).1.motionStartTime, lo ≤ t) := by
  unfold stepFrame
  by_cases hv : validateMotion cfg d
  · rw [if_pos hv]
    unfold processMotion
    by_cases hact : st.isMotionActive
    · cases hms : st.motionStartTime with
      | none =>
          simp only [hms, hact, if_true, Option.getD_none]
          rw [if_neg (by simp; omega)]
          simp [countStart, hms]
      | some t₀ =>
          have hlo := hst t₀ (by rw [hms]; rfl)
          simp only [hms, hact, if_true, Option.getD_some]
          rw [if_neg (by simp; omega)]
          simpa [countStart, hms] using hlo
    · simp only [hact, if_false, Bool.false_eq_true, Option.getD_some]
      rw [if_neg (by simp; omega)]
      simp [countStart]
      omega
  · rw [if_neg hv]
    unfold processNoMotion
    by_cases hact : st.isMotionActive
    · simp only [hact, if_true]
      refine ⟨by simp [countStart], ?_⟩
      intro t ht
      exact hst t ht
    · simp only [hact, if_false, Bool.false_eq_true]
      refine ⟨by simp [countStart], ?_⟩
      intro t ht
      exact hst t ht

/-- Feeding any frame sequence confined to a window shorter than
minDurationMs emits no confirmed motion event. -/
theorem runSteps_short_span (cfg : MotionConfig) (lo hi : Nat)
    (hspan : hi < lo + cfg.minDurationMs) :
    ∀ (frames : List (Nat × FrameData)) (st : MotionState),
      (∀ p ∈ frames, lo ≤ p.1 ∧ p.1 ≤ hi) →
      (∀ t ∈ st.motionStartTime, lo ≤ t) →
      countStart (runSteps cfg st frames).2 = 0 := by
  intro frames
  induction frames with
  | nil => intro st hT hst; rfl
  | cons p rest ih =>
      obtain ⟨t, d⟩ := p
      intro st hT hst
      have hts := hT (t, d) (List.mem_cons_self _ _)
      have hstep := stepFrame_short cfg d st t lo hi hspan hts.1 hts.2 hst
      have hrest := ih (stepFrame cfg st d t).1
        (fun p hp => hT p (List.mem_cons_of_mem _ hp)) hstep.2
      simp only [runSteps]
      simp [countStart] at hstep hrest ⊢
      exact ⟨hstep.1, hrest⟩

/-- One frame never emits a confirmed event when the incremented
consecutive-frame counter stays below 3, and the counter grows by at
most the candidate count. -/
theorem runSteps_few_candidates (cfg : MotionConfig) :
    ∀ (frames : List (Nat × FrameData)) (st : MotionState),
      st.consecutiveFrames +
        frames.countP (fun p => validateMotion cfg p.2) < 3 →
      countStart (runSteps cfg st frames).2 = 0 := by
  intro frames
  induction frames with
  | nil => intro st h; rfl
  | cons p rest ih =>
      obtain ⟨t, d⟩ := p
      intro st h
      simp only [runSteps]
      by_cases hv : validateMotion cfg d
      · have hcnt : ((t, d) :: rest).countP (fun p => validateMotion cfg p.2) =
            rest.countP (fun p => validateMotion cfg p.2) + 1 := by
          simp [List.countP_cons, hv]
        rw [hcnt] at h
        have hstep : stepFrame cfg st d t =
            ((stepFrame cfg st d t).1, []) ∧
            (stepFrame cfg st d t).1.consecutiveFrames =
              st.consecutiveFrames + 1 := by
          unfold stepFrame processMotion
          rw [if_pos hv]
          by_cases hact : st.isMotionActive
          · simp only [hact, if_true]
            rw [if_neg (by simp; omega)]
            simp
          · simp only [hact, if_false, Bool.false_eq_true]
            rw [if_neg (by simp; omega)]
            simp
        have hrest := ih (stepFrame cfg st d t).1 (by rw [hstep.2]; omega)
        rw [hstep.1]
        simp [countStart] at hrest ⊢
        exact hrest
      · have hcnt : ((t, d) :: rest).countP (fun p => validateMotion cfg p.2) =
            rest.countP (fun p => validateMotion cfg p.2) := by
          simp [List.countP_cons, hv]
        rw [hcnt] at h
        have hstep : countStart (stepFrame cfg st d t).2 = 0 ∧
            (stepFrame cfg st d t).1.consecutiveFrames ≤
              st.consecutiveFrames := by
          unfold stepFrame processNoMotion
          rw [if_neg hv]
          by_cases hact : st.isMotionActive
          · simp [hact, countStart]
          · simp [hact, countStart]
        have hrest := ih (stepFrame cfg st d t).1 (by omega)
        simp [countStart] at hstep hrest ⊢
        exact ⟨hstep.1, hrest⟩

/-- The scenario: three candidate frames spanning at least 300 ms emit
exactly one confirmed motion event. -/
theorem runSteps_scenario (t0 t1 t2 : Nat)
    (h02 : t0 + 300 ≤ t2) :
    countStart (runSteps scenarioCfg initialMotionState
      [(t0, scenarioFrame), (t1, scenarioFrame), (t2, scenarioFrame)]).2 = 1 := by
  have hv := validateMotion_scenario
  have e₁ : stepFrame scenarioCfg initialMotionState scenarioFrame t0 =
      ({ isMotionActive := true, motionStartTime := some t0,
         lastMotionLevel := 50, consecutiveFrames := 1 }, []) := by
    unfold stepFrame processMotion
    rw [if_pos hv]
    simp [initialMotionState, scenarioCfg, scenarioFrame]
  have e₂ : stepFrame scenarioCfg
      { isMotionActive := true, motionStartTime := some t0,
        lastMotionLevel := 50, consecutiveFrames := 1 } scenarioFrame t1 =
      ({ isMotionActive := true, motionStartTime := some t0,
         lastMotionLevel := 50, consecutiveFrames := 2 }, []) := by
    unfold stepFrame processMotion
    rw [if_pos hv]
    simp [scenarioCfg, scenarioFrame]
  have h300 : (300 : Nat) ≤ t2 - t0 := by omega
  have e₃ : stepFrame scenarioCfg
      { isMotionActive := true, motionStartTime := some t0,
        lastMotionLevel := 50, consecutiveFrames := 2 } scenarioFrame t2 =
      ({ isMotionActive := true, motionStartTime := some t2,
         lastMotionLevel := 50, consecutiveFrames := 0 },
       [{ type := .MOTION_START, duration := some (t2 - t0),
          level := some 50 }]) := by
    unfold stepFrame processMotion
    rw [if_pos hv]
    simp [scenarioCfg, scenarioFrame, h300]
  simp only [runSteps, e₁, e₂, e₃]
  simp [countStart]

/-- Event equivalence between the detector-level runFrames and the
per-camera runSteps for an attached, enabled camera. -/
theorem runFrames_eq_runSteps (cameraId : String)
    (frames : List (Nat × FrameData)) :
    ∀ (det : Detector) (st : MotionState),
      det.cameras.lookup cameraId = some true →
      det.motionState.lookup cameraId = some st →
      (det.runFrames cameraId frames).2 = (runSteps det.cfg st frames).2 := by
  induction frames with
  | nil => intro det st h₁ h₂; rfl
  | cons p rest ih =>
      obtain ⟨t, d⟩ := p
      intro det st h₁ h₂
      rcases hstep : stepFrame det.cfg st d t with ⟨st', evs⟩
      have hpf : det.processFrame cameraId d t =
          ({ det with motionState := setKey det.motionState cameraId st' },
           evs) := by
        simp only [Detector.processFrame, h₁, h₂, hstep]
        simp
      simp only [Detector.runFrames, runSteps, hpf, hstep]
      have hih := ih { det with motionState := setKey det.motionState cameraId st' }
        st' h₁ (lookup_setKey _ _ _)
      simp only [hih]

/-- C4: with the scenario configuration, three consecutive candidate
frames spaced at least 100 ms apart and spanning at least 300 ms emit
exactly one confirmed motion event; and, for any configuration and any
attached camera, a frame sequence confined to a window shorter than
minDurationMs, or containing fewer than three candidate frames, emits
no confirmed motion event. -/
theorem C4_motion_debounce :
    (∀ (t0 t1 t2 : Nat), t0 + 100 ≤ t1 → t1 + 100 ≤ t2 → t0 + 300 ≤ t2 →
      countStart ((((mkDetector scenarioCfg).attachCamera "CAM1").runFrames
        "CAM1" [(t0, scenarioFrame), (t1, scenarioFrame),
          (t2, scenarioFrame)]).2) = 1) ∧
    (∀ (cfg : MotionConfig) (cameraId : String)
        (frames : List (Nat × FrameData)) (lo hi : Nat),
      hi < lo + cfg.minDurationMs →
      (∀ p ∈ frames, lo ≤ p.1 ∧ p.1 ≤ hi) →
      countStart ((((mkDetector cfg).attachCamera cameraId).runFrames
        cameraId frames).2) = 0) ∧
    (∀ (cfg : MotionConfig) (cameraId : String)
        (frames : List (Nat × FrameData)),
      frames.countP (fun p => validateMotion cfg p.2) < 3 →
      countStart ((((mkDetector cfg).attachCamera cameraId).runFrames
        cameraId frames).2) = 0) := by
  have hatt : ∀ (cfg : MotionConfig) (cameraId : String),
      ((mkDetector cfg).attachCamera cameraId).cameras.lookup cameraId =
        some true ∧
      ((mkDetector cfg).attachCamera cameraId).motionState.lookup cameraId =
        some initialMotionState ∧
      ((mkDetector cfg).attachCamera cameraId).cfg = cfg := by
    intro cfg cameraId
    refine ⟨?_, ?_, rfl⟩ <;> simp [mkDetector, Detector.attachCamera, List.lookup]
  refine ⟨?_, ?_, ?_⟩
  · intro t0 t1 t2 h01 h12 h02
    rw [runFrames_eq_runSteps "CAM1" _ _ _ (hatt scenarioCfg "CAM1").1
      (hatt scenarioCfg "CAM1").2.1, (hatt scenarioCfg "CAM1").2.2]
    exact runSteps_scenario t0 t1 t2 h02
  · intro cfg cameraId frames lo hi hspan hT
    rw [runFrames_eq_runSteps cameraId _ _ _ (hatt cfg cameraId).1
      (hatt cfg cameraId).2.1, (hatt cfg cameraId).2.2]
    exact runSteps_short_span cfg lo hi hspan frames initialMotionState hT
      (by intro t ht; cases ht)
  · intro cfg cameraId frames hc
    rw [runFrames_eq_runSteps cameraId _ _ _ (hatt cfg cameraId).1
      (hatt cfg cameraId).2.1, (hatt cfg cameraId).2.2]
    exact runSteps_few_candidates cfg frames initialMotionState
      (by simpa [initialMotionState] using hc)

/-- Witness for C4: the scenario at times 0, 150, 300 emits one event;
a single in-window frame at time 0 with a 300 ms floor emits none; an
empty sequence emits none. -/
theorem C4_motion_debounce_witness :
    countStart ((((mkDetector scenarioCfg).attachCamera "CAM1").runFrames
      "CAM1" [(0, scenarioFrame), (150, scenarioFrame),
        (300, scenarioFrame)]).2) = 1 ∧
    countStart ((((mkDetector scenarioCfg).attachCamera "CAM1").runFrames
      "CAM1" [(0, scenarioFrame), (100, scenarioFrame)]).2) = 0 ∧
    countStart ((((mkDetector scenarioCfg).attachCamera "CAM1").runFrames
      "CAM1" ([] : List (Nat × FrameData))).2) = 0 :=
  ⟨C4_motion_debounce.1 0 150 300 (by decide) (by decide) (by decide),
   C4_motion_debounce.2.1 scenarioCfg "CAM1"
     [(0, scenarioFrame), (100, scenarioFrame)] 0 100 (by decide)
     (by decide),
   C4_motion_debounce.2.2 scenarioCfg "CAM1" [] (by decide)⟩

theorem data_append (s t : String) : (s ++ t).data = s.data ++ t.data := rfl

set_option maxRecDepth 4000 in
theorem pad_data_length : ∀ n < 100, (pad n).data.length = 2 := by decide

set_option maxRecDepth 4000 in
theorem pad_data_inj : ∀ m < 100, ∀ n < 100, (pad m).data = (pad n).data → m = n := by
  decide

/-- generateVideoFilename determines the padded components: for the
same camera and the same year, equal filenames force equal month, day,
hour, minute and second (all in the two-digit range the clock
produces). -/
theorem generateVideoFilename_components (id : String) (t₁ t₂ : Timestamp)
    (hy : t₁.year = t₂.year)
    (hm₁ : t₁.month < 100) (hd₁ : t₁.day < 100) (hh₁ : t₁.hour < 100)
    (hmi₁ : t₁.minute < 100) (hs₁ : t₁.second < 100)
    (hm₂ : t₂.month < 100) (hd₂ : t₂.day < 100) (hh₂ : t₂.hour < 100)
    (hmi₂ : t₂.minute < 100) (hs₂ : t₂.second < 100)
    (heq : generateVideoFilename id t₁ = generateVideoFilename id t₂) :
    t₁.month = t₂.month ∧ t₁.day = t₂.day ∧ t₁.hour = t₂.hour ∧
    t₁.minute = t₂.minute ∧ t₁.second = t₂.second := by
  have hdata := congrArg String.data heq
  rw [generateVideoFilename, generateVideoFilename, hy] at hdata
  simp only [data_append, List.append_assoc] at hdata
  have h₁ := List.append_cancel_left hdata
  have h₂ := List.append_cancel_left h₁
  have h₃ := List.append_cancel_left h₂
  have h₄ := List.append_cancel_left h₃
  have h₅ := List.append_inj h₄
    ((pad_data_length _ hm₁).trans (pad_data_length _ hm₂).symm)
  have hmo := pad_data_inj _ hm₁ _ hm₂ h₅.1
  have h₆ := List.append_cancel_left h₅.2
  have h₇ := List.append_inj h₆
    ((pad_data_length _ hd₁).trans (pad_data_length _ hd₂).symm)
  have hda := pad_data_inj _ hd₁ _ hd₂ h₇.1
  have h₈ := List.append_cancel_left h₇.2
  have h₉ := List.append_inj h₈
    ((pad_data_length _ hh₁).trans (pad_data_length _ hh₂).symm)
  have hho := pad_data_inj _ hh₁ _ hh₂ h₉.1
  have h₁₀ := List.append_cancel_left h₉.2
  have h₁₁ := List.append_inj h₁₀
    ((pad_data_length _ hmi₁).trans (pad_data_length _ hmi₂).symm)
  have hmin := pad_data_inj _ hmi₁ _ hmi₂ h₁₁.1
  have h₁₂ := List.append_cancel_left h₁₁.2
  have h₁₃ := List.append_inj h₁₂
    ((pad_data_length _ hs₁).trans (pad_data_length _ hs₂).symm)
  exact ⟨hmo, hda, hho, hmin, pad_data_inj _ hs₁ _ hs₂ h₁₃.1⟩

/-- C9 (counterexample): filenames are reused — camera CAM1 started,
force-stopped and started again within the same calendar second runs two
successful startRecording cycles whose derived outputIdentifiers are
the same string. -/
theorem C9_filename_counterexample :
    (startRecording initialRecorderSt "CAM1" sampleTime none).1 = true ∧
    (startRecording (forceStop (startRecording initialRecorderSt "CAM1"
        sampleTime none).2.1 "CAM1").1 "CAM1" sampleTime none).1 = true ∧
    (getCamera (startRecording initialRecorderSt "CAM1" sampleTime none).2.1
        "CAM1").currentFile = some "CAM1_2026-01-04_14-32-10.mp4" ∧
    (getCamera (startRecording (forceStop (startRecording initialRecorderSt
        "CAM1" sampleTime none).2.1 "CAM1").1 "CAM1" sampleTime none).2.1
        "CAM1").currentFile = some "CAM1_2026-01-04_14-32-10.mp4" := by
  refine ⟨rfl, ?_, rfl, ?_⟩ <;> decide

/-- C9 (amended): the outputIdentifier is a deterministic function of
the camera id and the second-resolution start time, so two successful
startRecording cycles of the same camera within the same calendar
second (made possible by an interleaved forceStop) derive the same
identifier; for a fixed camera, cycles starting at different
second-resolution times of the same year (components in clock range)
derive distinct identifiers. -/
theorem C9_filename_reuse :
    (∀ (s : RecorderSt) (id : String) (t : Timestamp) (url₁ url₂ : Option String),
      (getCamera s id).state = RecordingState.IDLE →
      (startRecording s id t url₁).1 = true ∧
      (startRecording (forceStop (startRecording s id t url₁).2.1 id).1
        id t url₂).1 = true ∧
      (getCamera (startRecording s id t url₁).2.1 id).currentFile =
        some (generateVideoFilename id t) ∧
      (getCamera (startRecording (forceStop (startRecording s id t url₁).2.1
          id).1 id t url₂).2.1 id).currentFile =
        some (generateVideoFilename id t)) ∧
    (∀ (id : String) (t₁ t₂ : Timestamp),
      t₁.year = t₂.year →
      t₁.month < 100 → t₁.day < 100 → t₁.hour < 100 → t₁.minute < 100 →
      t₁.second < 100 →
      t₂.month < 100 → t₂.day < 100 → t₂.hour < 100 → t₂.minute < 100 →
      t₂.second < 100 →
      t₁ ≠ t₂ →
      generateVideoFilename id t₁ ≠ generateVideoFilename id t₂) := by
  constructor
  · intro s id t url₁ url₂ h
    have e₁ := startRecording_idle_eq s id t url₁ h
    have hfile₁ : (getCamera (startRecording s id t url₁).2.1 id).currentFile =
        some (generateVideoFilename id t) := by
      rw [e₁]
      simp only [getCamera]
      simp [lookup_setKey_cases]
    have hidle₂ : (getCamera (forceStop (startRecording s id t url₁).2.1 id).1
        id).state = RecordingState.IDLE := by
      rw [forceStop_eq]
      simp only [getCamera]
      simp [lookup_setKey_cases]
    have e₂ := startRecording_idle_eq _ id t url₂ hidle₂
    have hfile₂ : (getCamera (startRecording (forceStop
        (startRecording s id t url₁).2.1 id).1 id t url₂).2.1 id).currentFile =
        some (generateVideoFilename id t) := by
      rw [e₂]
      simp only [getCamera]
      simp [lookup_setKey_cases]
    refine ⟨by rw [e₁], by rw [e₂], hfile₁, hfile₂⟩
  · intro id t₁ t₂ hy hm₁ hd₁ hh₁ hmi₁ hs₁ hm₂ hd₂ hh₂ hmi₂ hs₂ hne heq
    have hc := generateVideoFilename_components id t₁ t₂ hy
      hm₁ hd₁ hh₁ hmi₁ hs₁ hm₂ hd₂ hh₂ hmi₂ hs₂ heq
    apply hne
    obtain ⟨y₁, mo₁, d₁, h₁, mi₁, s₁⟩ := t₁
    obtain ⟨y₂, mo₂, d₂, h₂, mi₂, s₂⟩ := t₂
    simp only at hy hc
    simp [hy, hc.1, hc.2.1, hc.2.2.1, hc.2.2.2.1, hc.2.2.2.2]

/-- Witness for the amended C9: the same-second collision at the
initial state, and two times one second apart giving distinct
filenames. -/
theorem C9_filename_reuse_witness :
    (getCamera (startRecording (forceStop (startRecording initialRecorderSt
        "CAM1" sampleTime none).2.1 "CAM1").1 "CAM1" sampleTime none).2.1
        "CAM1").currentFile = some (generateVideoFilename "CAM1" sampleTime) ∧
    generateVideoFilename "CAM1" sampleTime ≠
      generateVideoFilename "CAM1"
        { year := 2026, month := 1, day := 4, hour := 14, minute := 32,
          second := 11 } :=
  ⟨(C9_filename_reuse.1 initialRecorderSt "CAM1" sampleTime none none
      rfl).2.2.2,
   C9_filename_reuse.2 "CAM1" sampleTime
     { year := 2026, month := 1, day := 4, hour := 14, minute := 32,
       second := 11 }
     rfl (by decide) (by decide) (by decide) (by decide) (by decide)
     (by decide) (by decide) (by decide) (by decide) (by decide) (by decide)⟩

theorem spliceEntry_cons_ne (a : IndexEntry) (recs : List IndexEntry)
    (filename : String) (h : ¬ a.filename = filename) :
    spliceEntry (a :: recs) filename = a :: spliceEntry recs filename := by
  unfold spliceEntry
  rw [List.findIdx?_cons]
  rw [decide_eq_false h]
  simp only [Bool.false_eq_true, if_false]
  cases hidx : recs.findIdx? (fun e => e.filename = filename) with
  | none => simp [hidx]
  | some i => simp [hidx, List.eraseIdx]

/-- Under filename uniqueness, deleteRecording's filename splice
removes exactly the entry itself. -/
theorem spliceEntry_eq_erase (recs : List IndexEntry) (e : IndexEntry)
    (he : e ∈ recs) (hnd : (recs.map (fun x => x.filename)).Nodup) :
    spliceEntry recs e.filename = recs.erase e := by
  induction recs with
  | nil => cases he
  | cons a tl ih =>
      have hnd₁ : a.filename ∉ tl.map (fun x => x.filename) := by
        have h₀ := hnd
        simp only [List.map_cons, List.nodup_cons] at h₀
        exact h₀.1
      have hnd₂ : (tl.map (fun x => x.filename)).Nodup := by
        have h₀ := hnd
        simp only [List.map_cons, List.nodup_cons] at h₀
        exact h₀.2
      by_cases hf : a.filename = e.filename
      · have hae : a = e := by
          cases List.mem_cons.mp he with
          | inl h => exact h.symm
          | inr h =>
              exfalso
              apply hnd₁
              rw [hf]
              exact List.mem_map_of_mem _ h
        subst hae
        have hsp : spliceEntry (a :: tl) a.filename = tl := by
          unfold spliceEntry
          rw [List.findIdx?_cons]
          simp [List.eraseIdx]
        rw [hsp, List.erase_cons_head]
      · have hne : a ≠ e := fun hh => hf (by rw [hh])
        have he' : e ∈ tl := by
          cases List.mem_cons.mp he with
          | inl h => exact absurd h.symm hne
          | inr h => exact h
        rw [spliceEntry_cons_ne a tl e.filename hf, ih he' hnd₂,
          List.erase_cons_tail]
        simp [hne]

/-- Behaviour of the cleanup loop: it deletes exactly a prefix of the
ascending snapshot (so always a currently-oldest entry), leaves the
index a permutation of the remaining suffix, and stops only below the
target usage or with the snapshot exhausted. -/
theorem cleanupLoop_spec (target total : Nat) :
    ∀ (sorted recs : List IndexEntry),
      List.Perm sorted recs →
      (recs.map (fun x => x.filename)).Nodup →
      (∃ k, (cleanupLoop target total sorted recs).2 = sorted.take k ∧
        List.Perm (cleanupLoop target total sorted recs).1
          (sorted.drop k)) ∧
      (usageAbove (cleanupLoop target total sorted recs).1 total target =
          false ∨
        (cleanupLoop target total sorted recs).1 = []) := by
  intro sorted
  induction sorted with
  | nil =>
      intro recs hperm hnd
      have hnil : recs = [] := hperm.symm.eq_nil
      constructor
      · exact ⟨0, rfl, by simp [cleanupLoop, hnil]⟩
      · right
        simpa [cleanupLoop] using hnil
  | cons oldest rest ih =>
      intro recs hperm hnd
      by_cases hcond : usageAbove recs total target = true
      · have hmem : oldest ∈ recs := hperm.mem_iff.mp (List.mem_cons_self _ _)
        have hsplice : spliceEntry recs oldest.filename = recs.erase oldest :=
          spliceEntry_eq_erase recs oldest hmem hnd
        have hperm' : List.Perm rest (spliceEntry recs oldest.filename) := by
          rw [hsplice]
          exact (List.cons_perm_iff_perm_erase.mp hperm).2
        have hnd' : ((spliceEntry recs oldest.filename).map
            (fun x => x.filename)).Nodup := by
          rw [hsplice]
          exact List.Nodup.sublist
            (List.Sublist.map _ (List.erase_sublist _ _)) hnd
        have hloop : cleanupLoop target total (oldest :: rest) recs =
            ((cleanupLoop target total rest
                (spliceEntry recs oldest.filename)).1,
             oldest :: (cleanupLoop target total rest
                (spliceEntry recs oldest.filename)).2) := by
          simp only [cleanupLoop, hcond, if_true]
        obtain ⟨⟨k, hdel, hperm''⟩, hfinal⟩ :=
          ih (spliceEntry recs oldest.filename) hperm' hnd'
        constructor
        · refine ⟨k + 1, ?_, ?_⟩
          · rw [hloop]
            simp [hdel]
          · rw [hloop]
            simpa using hperm''
        · rw [hloop]
          simpa using hfinal
      · have hloop : cleanupLoop target total (oldest :: rest) recs =
            (recs, []) := by
          simp only [cleanupLoop]
          rw [if_neg hcond]
        constructor
        · refine ⟨0, by simp [hloop], ?_⟩
          rw [hloop]
          exact hperm.symm
        · left
          rw [hloop]
          simpa using hcond

/-- C5: when computed usage reaches the ceiling (auto-cleanup on, index
filenames unique), the stats refresh runs the eviction; the deleted
entries form a prefix of the index sorted ascending by creation time —
so every deleted entry is no newer than anything deleted after it or
left behind — and eviction ends with usage at most ceiling − 10
percentage points or with the index empty. -/
theorem C5_eviction_convergence (s : StorageSt)
    (hnd : (s.recordings.map (fun e => e.filename)).Nodup)
    (hauto : s.autoCleanup = true)
    (htrig : usageAtLeast s.recordings s.totalBytes s.maxUsagePercent = true) :
    updateStorageStats s = (performCleanup s).1 ∧
    (∃ k, (performCleanup s).2 = (sortByTimestamp s.recordings).take k ∧
      List.Perm (performCleanup s).1.recordings
        ((sortByTimestamp s.recordings).drop k)) ∧
    List.Pairwise (fun a b => a.timestamp ≤ b.timestamp)
      (performCleanup s).2 ∧
    (∀ e ∈ (performCleanup s).2, ∀ e₂ ∈ (performCleanup s).1.recordings,
      e.timestamp ≤ e₂.timestamp) ∧
    (usageAbove (performCleanup s).1.recordings s.totalBytes
        (s.maxUsagePercent - 10) = false ∨
      (performCleanup s).1.recordings = []) := by
  have hperm : List.Perm (sortByTimestamp s.recordings) s.recordings :=
    List.mergeSort_perm _ _
  have hsorted : List.Pairwise (fun a b => a.timestamp ≤ b.timestamp)
      (sortByTimestamp s.recordings) := by
    have h := @List.sorted_mergeSort IndexEntry
      (fun a b => a.timestamp ≤ b.timestamp)
      (fun a b c h₁ h₂ => by simp at h₁ h₂ ⊢; omega)
      (fun a b => by simp; omega) s.recordings
    simpa [sortByTimestamp] using h
  obtain ⟨⟨k, hdel, hperm'⟩, hfinal⟩ := cleanupLoop_spec
    (s.maxUsagePercent - 10) s.totalBytes (sortByTimestamp s.recordings)
    s.recordings hperm hnd
  have hpc₁ : (performCleanup s).1.recordings =
      (cleanupLoop (s.maxUsagePercent - 10) s.totalBytes
        (sortByTimestamp s.recordings) s.recordings).1 := rfl
  have hpc₂ : (performCleanup s).2 =
      (cleanupLoop (s.maxUsagePercent - 10) s.totalBytes
        (sortByTimestamp s.recordings) s.recordings).2 := rfl
  refine ⟨?_, ⟨k, ?_, ?_⟩, ?_, ?_, ?_⟩
  · simp only [updateStorageStats, hauto, htrig, Bool.and_self, if_true]
  · rw [hpc₂, hdel]
  · rw [hpc₁]
    exact hperm'
  · rw [hpc₂, hdel]
    exact List.Pairwise.sublist (List.take_sublist _ _) hsorted
  · intro e he e₂ he₂
    rw [hpc₂, hdel] at he
    rw [hpc₁] at he₂
    have he₂' : e₂ ∈ (sortByTimestamp s.recordings).drop k :=
      hperm'.mem_iff.mp he₂
    have hs := hsorted
    rw [← List.take_append_drop k (sortByTimestamp s.recordings)] at hs
    exact (List.pairwise_append.mp hs).2.2 e he e₂ he₂'
  · rw [hpc₁]
    exact hfinal

unseal List.merge List.mergeSort in
/-- Witness for C5: two indexed recordings of 500 and 450 bytes on a
1000-byte disk with a 90 percent ceiling; eviction deletes the older
one and stops at 45 percent usage. -/
theorem C5_eviction_convergence_witness :
    updateStorageStats
        { recordings :=
            [{ entryId := "r1", cameraId := "A", filename := "f1",
               timestamp := 1, duration := 60, size := 500,
               downloaded := false },
             { entryId := "r2", cameraId := "A", filename := "f2",
               timestamp := 2, duration := 60, size := 450,
               downloaded := false }],
          persistedIndex := [], totalBytes := 1000, maxUsagePercent := 90,
          autoCleanup := true } =
      (performCleanup
        { recordings :=
            [{ entryId := "r1", cameraId := "A", filename := "f1",
               timestamp := 1, duration := 60, size := 500,
               downloaded := false },
             { entryId := "r2", cameraId := "A", filename := "f2",
               timestamp := 2, duration := 60, size := 450,
               downloaded := false }],
          persistedIndex := [], totalBytes := 1000, maxUsagePercent := 90,
          autoCleanup := true }).1 ∧
    (usageAbove (performCleanup
        { recordings :=
            [{ entryId := "r1", cameraId := "A", filename := "f1",
               timestamp := 1, duration := 60, size := 500,
               downloaded := false },
             { entryId := "r2", cameraId := "A", filename := "f2",
               timestamp := 2, duration := 60, size := 450,
               downloaded := false }],
          persistedIndex := [], totalBytes := 1000, maxUsagePercent := 90,
          autoCleanup := true }).1.recordings 1000 80 = false ∨
      (performCleanup
        { recordings :=
            [{ entryId := "r1", cameraId := "A", filename := "f1",
               timestamp := 1, duration := 60, size := 500,
               downloaded := false },
             { entryId := "r2", cameraId := "A", filename := "f2",
               timestamp := 2, duration := 60, size := 450,
               downloaded := false }],
          persistedIndex := [], totalBytes := 1000, maxUsagePercent := 90,
          autoCleanup := true }).1.recordings = []) :=
  let s₀ : StorageSt :=
    { recordings :=
        [{ entryId := "r1", cameraId := "A", filename := "f1",
           timestamp := 1, duration := 60, size := 500,
           downloaded := false },
         { entryId := "r2", cameraId := "A", filename := "f2",
           timestamp := 2, duration := 60, size := 450,
           downloaded := false }],
      persistedIndex := [], totalBytes := 1000, maxUsagePercent := 90,
      autoCleanup := true }
  let h := C5_eviction_convergence s₀ (by decide) rfl (by decide)
  ⟨h.1, h.2.2.2.2⟩

unseal List.merge List.mergeSort in
/-- C6 (counterexample): addRecording that pushes usage to 95 percent
on a 90 percent ceiling triggers auto-cleanup after persisting, so the
operation returns with the persisted index still containing the evicted
entry — the in-memory index and the durable index disagree. -/
theorem C6_persistence_counterexample :
    (addRecording
        { recordings :=
            [{ entryId := "r1", cameraId := "A", filename := "f1",
               timestamp := 1, duration := 60, size := 850,
               downloaded := false }],
          persistedIndex :=
            [{ entryId := "r1", cameraId := "A", filename := "f1",
               timestamp := 1, duration := 60, size := 850,
               downloaded := false }],
          totalBytes := 1000, maxUsagePercent := 90, autoCleanup := true }
        { entryId := "r2", cameraId := "A", filename := "f2",
          timestamp := 2, duration := 60, size := 100,
          downloaded := false }).persistedIndex ≠
      (addRecording
        { recordings :=
            [{ entryId := "r1", cameraId := "A", filename := "f1",
               timestamp := 1, duration := 60, size := 850,
               downloaded := false }],
          persistedIndex :=
            [{ entryId := "r1", cameraId := "A", filename := "f1",
               timestamp := 1, duration := 60, size := 850,
               downloaded := false }],
          totalBytes := 1000, maxUsagePercent := 90, autoCleanup := true }
        { entryId := "r2", cameraId := "A", filename := "f2",
          timestamp := 2, duration := 60, size := 100,
          downloaded := false }).recordings := by
  decide

/-- C6 (amended): addRecording and a standalone deleteRecording rewrite
the full index to durable storage after their own mutation — the
persisted and in-memory index agree on return whenever the trailing
stats refresh does not trigger auto-cleanup — but the removals the
eviction loop performs are never persisted: performCleanup leaves the
persisted index untouched. -/
theorem C6_index_persistence :
    (∀ (s : StorageSt) (f : String),
      (s.autoCleanup = false ∨
        usageAtLeast (spliceEntry s.recordings f) s.totalBytes
          s.maxUsagePercent = false) →
      (deleteRecordingStandalone s f).persistedIndex =
        (deleteRecordingStandalone s f).recordings ∧
      (deleteRecordingStandalone s f).recordings =
        spliceEntry s.recordings f) ∧
    (∀ (s : StorageSt) (e : IndexEntry),
      (s.autoCleanup = false ∨
        usageAtLeast (s.recordings ++ [e]) s.totalBytes
          s.maxUsagePercent = false) →
      (addRecording s e).persistedIndex = (addRecording s e).recordings ∧
      (addRecording s e).recordings = s.recordings ++ [e]) ∧
    (∀ s : StorageSt, (performCleanup s).1.persistedIndex =
      s.persistedIndex) := by
  refine ⟨?_, ?_, fun s => rfl⟩
  · intro s f h
    have hcond : ((saveIndex { s with
        recordings := spliceEntry s.recordings f }).autoCleanup &&
        usageAtLeast (saveIndex { s with
          recordings := spliceEntry s.recordings f }).recordings
          (saveIndex { s with
            recordings := spliceEntry s.recordings f }).totalBytes
          (saveIndex { s with
            recordings := spliceEntry s.recordings f }).maxUsagePercent) =
        false := by
      cases h with
      | inl h => simp [saveIndex, h]
      | inr h => simp [saveIndex, h]
    unfold deleteRecordingStandalone updateStorageStats
    rw [hcond]
    exact ⟨rfl, rfl⟩
  · intro s e h
    have hcond : ((saveIndex { s with
        recordings := s.recordings ++ [e] }).autoCleanup &&
        usageAtLeast (saveIndex { s with
          recordings := s.recordings ++ [e] }).recordings
          (saveIndex { s with
            recordings := s.recordings ++ [e] }).totalBytes
          (saveIndex { s with
            recordings := s.recordings ++ [e] }).maxUsagePercent) =
        false := by
      cases h with
      | inl h => simp [saveIndex, h]
      | inr h => simp [saveIndex, h]
    unfold addRecording updateStorageStats
    rw [hcond]
    exact ⟨rfl, rfl⟩

/-- Witness for the amended C6: a delete and an add on an empty index
with auto-cleanup off both return with the persisted index equal to the
in-memory index, and eviction on a sample state leaves the persisted
index unchanged. -/
theorem C6_index_persistence_witness :
    (deleteRecordingStandalone
        { recordings := [], persistedIndex := [], totalBytes := 1000,
          maxUsagePercent := 90, autoCleanup := false } "f").persistedIndex =
      (deleteRecordingStandalone
        { recordings := [], persistedIndex := [], totalBytes := 1000,
          maxUsagePercent := 90, autoCleanup := false } "f").recordings ∧
    (addRecording
        { recordings := [], persistedIndex := [], totalBytes := 1000,
          maxUsagePercent := 90, autoCleanup := false }
        { entryId := "r1", cameraId := "A", filename := "f1",
          timestamp := 1, duration := 60, size := 10,
          downloaded := false }).persistedIndex =
      (addRecording
        { recordings := [], persistedIndex := [], totalBytes := 1000,
          maxUsagePercent := 90, autoCleanup := false }
        { entryId := "r1", cameraId := "A", filename := "f1",
          timestamp := 1, duration := 60, size := 10,
          downloaded := false }).recordings :=
  ⟨(C6_index_persistence.1
      { recordings := [], persistedIndex := [], totalBytes := 1000,
        maxUsagePercent := 90, autoCleanup := false } "f"
      (Or.inl rfl)).1,
   (C6_index_persistence.2.1
      { recordings := [], persistedIndex := [], totalBytes := 1000,
        maxUsagePercent := 90, autoCleanup := false }
      { entryId := "r1", cameraId := "A", filename := "f1",
        timestamp := 1, duration := 60, size := 10, downloaded := false }
      (Or.inl rfl)).1⟩

/-- C10: the orchestrator's motion listener invokes both
alarmController.trigger and recordingController.startRecording for the
camera of every motion event it receives, irrespective of the event's
type — in particular also for MOTION_END events. -/
theorem C10_motion_listener (cameraId : String) (event : MotionEvent) :
    OrchCall.alarmTrigger cameraId ∈ onMotionEvent cameraId event ∧
    OrchCall.recStart cameraId ∈ onMotionEvent cameraId event := by
  simp [onMotionEvent]

end Astro
